import Mathlib

/-!
Verification of the synthetic load-generation and metrics-observation
endpoints of the SSR demo server (`src/server/index.ts`), via a shallow
embedding of the handlers into Lean.

Modelling conventions:
* JavaScript numbers that the server only ever uses as integers are
  embedded as `Int` (query parameters, counters, millisecond timestamps).
  Where `Math.floor` acts on a possibly fractional value we use `ℚ`.
* `parseInt(s) || d` is embedded faithfully: `parseInt` returns `none`
  (for NaN) or the parsed integer, and `||` falls back to the default on
  the falsy values NaN and 0.
* JavaScript division (`requestCount / uptime`) is embedded by `jsDiv`,
  whose codomain `JsNum` distinguishes finite values from NaN and ±Infinity;
  `JSON.stringify` (used by `res.json`) maps NaN/±Infinity to `null`,
  embedded by `jsNumToJson` with `none` standing for JSON `null`.
* Wall-clock time is passed explicitly: each handler that measures a
  duration receives the elapsed milliseconds of its synchronous phases and
  the overshoot of `setTimeout` (which never fires before its delay) as
  extra `Nat` parameters.
-/

namespace LoadServer

/-- Embeds `fibonacci` from `src/server/index.ts` lines 61-64:
`if (n <= 1) return n; return fibonacci(n - 1) + fibonacci(n - 2)`. -/
def fibonacci (n : Int) : Int :=
  if n ≤ 1 then n
  else fibonacci (n - 1) + fibonacci (n - 2)
termination_by n.toNat
decreasing_by
  · omega
  · omega

/-- The digits accumulated left to right, as `parseInt` does. -/
def digitsToNat (ds : List Char) : Nat :=
  ds.foldl (fun acc c => acc * 10 + (c.toNat - 48)) 0

/-- The maximal leading run of decimal digits, or `none` when there is none. -/
def leadingNat (cs : List Char) : Option Nat :=
  let ds := cs.takeWhile Char.isDigit
  if ds.isEmpty then none else some (digitsToNat ds)

/-- Embeds JavaScript `parseInt(s)` in base 10 on query strings: skip leading
whitespace, an optional sign, then the longest digit run; `none` is NaN. -/
def jsParseInt (s : String) : Option Int :=
  let cs := s.data.dropWhile (fun c => c = ' ')
  match cs with
  | '-' :: rest => (leadingNat rest).map (fun v => -(v : Int))
  | '+' :: rest => (leadingNat rest).map (fun v => (v : Int))
  | rest => (leadingNat rest).map (fun v => (v : Int))

/-- Embeds the pattern `parseInt(req.query.x as string) || d` used by every
load endpoint: `q = none` is an absent parameter; `jsParseInt` returning
`none` is NaN; and `||` also replaces a parsed `0` (falsy) by the default. -/
def queryIntOr (q : Option String) (d : Int) : Int :=
  match q with
  | none => d
  | some s =>
    match jsParseInt s with
    | none => d
    | some v => if v = 0 then d else v

/-- `n` of `GET /api/cpu-load` (line 108): default 40. -/
def cpuLoadN (q : Option String) : Int := queryIntOr q 40

/-- `size` of `GET /api/memory-load` (line 123): default 10. -/
def memoryLoadSize (q : Option String) : Int := queryIntOr q 10

/-- `delay` of `GET /api/async-load` (line 143): default 100. -/
def asyncLoadDelay (q : Option String) : Int := queryIntOr q 100

/-- `cpu` of `GET /api/combined-load` (line 158): default 30. -/
def combinedCpuWork (q : Option String) : Int := queryIntOr q 30

/-- `memory` of `GET /api/combined-load` (line 159): default 5. -/
def combinedMemoryMB (q : Option String) : Int := queryIntOr q 5

/-- `delay` of `GET /api/combined-load` (line 160): default 50. -/
def combinedAsyncDelay (q : Option String) : Int := queryIntOr q 50

/-- Embeds the `LoadTestMetrics` interface and the `metrics` object
(lines 37-47): `requestCount` and `errors` start at 0, `startTime` is the
`Date.now()` of process start (milliseconds). -/
structure LoadTestMetrics where
  requestCount : Nat
  startTime : Int
  errors : Nat
deriving DecidableEq, Repr

/-- The initial `metrics` value (lines 43-47) for a process started at
millisecond timestamp `t0`. -/
def initialMetrics (t0 : Int) : LoadTestMetrics :=
  { requestCount := 0, startTime := t0, errors := 0 }

/-- A JavaScript number as produced by floating-point division: a finite
value, NaN, or a signed infinity. -/
inductive JsNum where
  | finite (q : ℚ)
  | nan
  | posInf
  | negInf
deriving DecidableEq, Repr

/-- Embeds JavaScript `/` on numbers: `0/0 = NaN`, `a/0 = ±Infinity` for
nonzero `a`, ordinary division otherwise. -/
def jsDiv (a b : ℚ) : JsNum :=
  if b = 0 then
    if a = 0 then JsNum.nan
    else if 0 < a then JsNum.posInf
    else JsNum.negInf
  else JsNum.finite (a / b)

/-- Embeds `JSON.stringify` on a number field, as applied by `res.json`:
finite values serialize as themselves, NaN and ±Infinity as JSON `null`
(`none`). -/
def jsNumToJson : JsNum → Option ℚ
  | JsNum.finite q => some q
  | JsNum.nan => none
  | JsNum.posInf => none
  | JsNum.negInf => none

/-- `const uptime = (Date.now() - metrics.startTime) / 1000` of the
`/api/metrics` handler (line 87), at current timestamp `now`. -/
def metricsUptime (m : LoadTestMetrics) (now : Int) : ℚ :=
  ((now - m.startTime : Int) : ℚ) / 1000

/-- The `requestsPerSecond` field of the `/api/metrics` response (line 92):
`metrics.requestCount / uptime` with JavaScript division semantics. -/
def requestsPerSecond (m : LoadTestMetrics) (now : Int) : JsNum :=
  jsDiv (m.requestCount : ℚ) (metricsUptime m now)

/-- The numeric fields of the `GET /api/metrics` response (lines 86-96). -/
structure MetricsResponse where
  requestCount : Nat
  errors : Nat
  uptime : ℚ
  requestsPerSecond : JsNum
deriving DecidableEq, Repr

/-- Embeds the `GET /api/metrics` handler (lines 86-96); it reads `metrics`
without mutating it. -/
def metricsHandler (m : LoadTestMetrics) (now : Int) : MetricsResponse :=
  { requestCount := m.requestCount
  , errors := m.errors
  , uptime := metricsUptime m now
  , requestsPerSecond := requestsPerSecond m now }

/-- A buffer produced by `Buffer.alloc(1024 * 1024)`: its allocation index
within one `allocateMemory` call (each `push` yields a distinct object) and
its size in bytes. -/
structure Buffer where
  allocIndex : Nat
  sizeBytes : Nat
deriving DecidableEq, Repr

/-- Embeds `allocateMemory` (lines 67-74): `iterations = Math.floor(sizeMB)`
and a loop pushing one fresh 1 MB buffer per iteration (a negative
`iterations` runs the loop zero times). -/
def allocateMemory (sizeMB : ℚ) : List Buffer :=
  let iterations := ⌊sizeMB⌋
  (List.range iterations.toNat).map (fun i => { allocIndex := i, sizeBytes := 1024 * 1024 })

/-- The JSON body of the `GET /api/cpu-load` response (lines 113-118). -/
structure CpuLoadResponse where
  result : Int
  duration : Nat
  input : Int
deriving DecidableEq, Repr

/-- Embeds the `GET /api/cpu-load` handler (lines 99-119). `q` is the raw
`n` query value; `tCpu` is the measured wall-clock milliseconds of the
synchronous `fibonacci` call (`Date.now()` differencing). The NSolid
profiling signal is fire-and-forget and does not affect the response. -/
def cpuLoadHandler (q : Option String) (tCpu : Nat) : CpuLoadResponse :=
  let n := cpuLoadN q
  { result := fibonacci n, duration := tCpu, input := n }

/-- The JSON body of the `GET /api/memory-load` response (lines 133-138),
together with the buffer list the handler retains for its cleanup timer. -/
structure MemoryLoadResponse where
  allocatedMB : Int
  duration : Nat
  buffers : List Buffer
deriving DecidableEq, Repr

/-- Embeds the `GET /api/memory-load` handler (lines 122-139). `q` is the
raw `size` query value; `tAlloc` the measured allocation milliseconds. The
cleanup `setTimeout` empties `buffers` ~1s later and is not awaited. -/
def memoryLoadHandler (q : Option String) (tAlloc : Nat) : MemoryLoadResponse :=
  let sizeMB := memoryLoadSize q
  { allocatedMB := sizeMB, duration := tAlloc, buffers := allocateMemory (sizeMB : ℚ) }

/-- The JSON body of the `GET /api/async-load` response (lines 149-153). -/
structure AsyncLoadResponse where
  delay : Int
  actualDuration : Nat
deriving DecidableEq, Repr

/-- Embeds `await new Promise(resolve => setTimeout(resolve, delay))`
followed by `Date.now()` differencing: the elapsed milliseconds are the
timer's delay (a negative delay fires immediately, hence `Int.toNat`) plus
a non-negative scheduler overshoot `tSlack` — `setTimeout` never fires
before its delay. -/
def awaitedDelayMs (delay : Int) (tSlack : Nat) : Nat :=
  delay.toNat + tSlack

/-- Embeds the `GET /api/async-load` handler (lines 142-154). `q` is the
raw `delay` query value, `tSlack` the timer overshoot of this request. -/
def asyncLoadHandler (q : Option String) (tSlack : Nat) : AsyncLoadResponse :=
  let delay := asyncLoadDelay q
  { delay := delay, actualDuration := awaitedDelayMs delay tSlack }

/-- The steps the combined handler performs, in execution order. -/
inductive CombinedStep where
  | cpuWork
  | memAlloc
  | asyncWait
  | memSnapshot
deriving DecidableEq, Repr

/-- The JSON body of the `GET /api/combined-load` response (lines 180-187),
plus the handler's retained buffers and its step trace (the order in which
the handler body executes its phases; `memSnapshot` is the
`process.memoryUsage()` call made while building the response object). -/
structure CombinedLoadResponse where
  fibResult : Int
  allocatedMB : Int
  asyncDelay : Int
  totalDuration : Nat
  buffers : List Buffer
  trace : List CombinedStep
deriving DecidableEq, Repr

/-- Embeds the `GET /api/combined-load` handler (lines 157-188): parse the
three parameters, run `fibonacci`, then `allocateMemory`, then await the
delay, then respond with the merged results and `Date.now()` differencing
over all three phases. `tCpu`/`tMem` are the measured milliseconds of the
two synchronous phases and `tSlack` the delay timer's overshoot. -/
def combinedLoadHandler (qCpu qMem qDelay : Option String)
    (tCpu tMem tSlack : Nat) : CombinedLoadResponse :=
  let cpuWork := combinedCpuWork qCpu
  let memoryMB := combinedMemoryMB qMem
  let asyncDelay := combinedAsyncDelay qDelay
  let fibResult := fibonacci cpuWork
  let buffers := allocateMemory (memoryMB : ℚ)
  let waited := awaitedDelayMs asyncDelay tSlack
  { fibResult := fibResult
  , allocatedMB := memoryMB
  , asyncDelay := asyncDelay
  , totalDuration := tCpu + tMem + waited
  , buffers := buffers
  , trace := [CombinedStep.cpuWork, CombinedStep.memAlloc,
              CombinedStep.asyncWait, CombinedStep.memSnapshot] }

/-- The outcome of the SSR rendering pipeline for one catch-all request:
`Except.ok` carries the rendered `appHtml`, `Except.error` the thrown
exception's `e.stack`. -/
abbrev RenderResult := Except String String

/-- An HTTP response of the catch-all handler: status code and body. -/
structure HttpResponse where
  status : Nat
  body : String
deriving DecidableEq, Repr

/-- Embeds the catch-all SSR handler (lines 191-212): inside the `try`,
`metrics.requestCount++` runs first, then the render; on success the
response is 200 with the rendered HTML, on a thrown exception the `catch`
increments `metrics.errors` and responds 500 with `e.stack`. The handler
returns the updated metrics — nothing is rolled back. -/
def ssrHandler (m : LoadTestMetrics) (render : RenderResult) :
    LoadTestMetrics × HttpResponse :=
  let m1 := { m with requestCount := m.requestCount + 1 }
  match render with
  | Except.ok appHtml => (m1, { status := 200, body := appHtml })
  | Except.error stack =>
    ({ m1 with errors := m1.errors + 1 }, { status := 500, body := stack })

/-- Embeds the `process.on('uncaughtException')` guard (lines 50-53):
log and `metrics.errors++`, nothing else. -/
def onUncaughtException (m : LoadTestMetrics) : LoadTestMetrics :=
  { m with errors := m.errors + 1 }

/-- Embeds the `process.on('unhandledRejection')` guard (lines 55-58):
log and `metrics.errors++`, nothing else. -/
def onUnhandledRejection (m : LoadTestMetrics) : LoadTestMetrics :=
  { m with errors := m.errors + 1 }

/-- The events that can touch the process-wide `metrics` object during the
life of the process.  The six API load endpoints never mention `metrics`
in their handler bodies (lines 77-188), so they appear here as events with
no metrics effect. -/
inductive Event where
  | ssr (render : RenderResult)
  | apiHealth
  | apiMetrics
  | apiCpuLoad
  | apiMemoryLoad
  | apiAsyncLoad
  | apiCombinedLoad
  | uncaughtException
  | unhandledRejection

/-- The metrics effect of one event, assembled from the handler and guard
embeddings above. -/
def stepMetrics (m : LoadTestMetrics) : Event → LoadTestMetrics
  | Event.ssr r => (ssrHandler m r).1
  | Event.apiHealth => m
  | Event.apiMetrics => m
  | Event.apiCpuLoad => m
  | Event.apiMemoryLoad => m
  | Event.apiAsyncLoad => m
  | Event.apiCombinedLoad => m
  | Event.uncaughtException => onUncaughtException m
  | Event.unhandledRejection => onUnhandledRejection m

/-- The metrics after a sequence of handled events. -/
def runEvents (m : LoadTestMetrics) (evs : List Event) : LoadTestMetrics :=
  evs.foldl stepMetrics m

/-- Process state: the metrics plus whether the process is still alive.
Neither handler errors nor the global guards call `process.exit`; the only
`process.exit(1)` in the source is the startup-failure path (line 230),
which precedes any request handling. -/
structure ProcState where
  metrics : LoadTestMetrics
  alive : Bool
deriving DecidableEq, Repr

/-- One event applied to the process state: the metrics step, with the
process left running (no request-time code path terminates the process). -/
def procStep (s : ProcState) (e : Event) : ProcState :=
  { s with metrics := stepMetrics s.metrics e }

end LoadServer

namespace LoadServer

theorem fibonacci_base0 : fibonacci 0 = 0 := by
  rw [fibonacci]; norm_num

theorem fibonacci_base1 : fibonacci 1 = 1 := by
  rw [fibonacci]; norm_num

theorem fibonacci_step (n : Int) (h : 2 ≤ n) :
    fibonacci n = fibonacci (n - 1) + fibonacci (n - 2) := by
  rw [fibonacci]
  have : ¬ n ≤ 1 := by omega
  simp [this]

/-- `fibonacci` agrees with the reference recurrence `Nat.fib` on all
non-negative inputs. -/
theorem fibonacci_eq_fib (n : Nat) : fibonacci (n : Int) = (Nat.fib n : Int) := by
  induction n using Nat.strong_induction_on with
  | _ n ih =>
    match n with
    | 0 => simpa using fibonacci_base0
    | 1 => simpa using fibonacci_base1
    | (m + 2) =>
      have h2 : (2 : Int) ≤ ((m + 2 : Nat) : Int) := by push_cast; omega
      rw [fibonacci_step _ h2]
      have e1 : ((m + 2 : Nat) : Int) - 1 = ((m + 1 : Nat) : Int) := by push_cast; ring
      have e2 : ((m + 2 : Nat) : Int) - 2 = ((m : Nat) : Int) := by push_cast; ring
      rw [e1, e2, ih (m + 1) (by omega), ih m (by omega)]
      rw [Nat.fib_add_two]
      push_cast
      ring

/-- Claim C1: for every non-negative integer `n`, the CPU load generator
`fibonacci` returns the `n`-th Fibonacci number of the reference recurrence
(`fib 0 = 0`, `fib 1 = 1`, `fib n = fib (n-1) + fib (n-2)`, i.e. `Nat.fib`),
and in particular it matches the precomputed values for
`n ∈ {0, 1, 2, 10, 20}`. -/
theorem c1_cpu_generator_returns_fib :
    (∀ n : Nat, fibonacci (n : Int) = (Nat.fib n : Int)) ∧
    fibonacci 0 = 0 ∧ fibonacci 1 = 1 ∧ fibonacci 2 = 1 ∧
    fibonacci 10 = 55 ∧ fibonacci 20 = 6765 := by
  refine ⟨fibonacci_eq_fib, ?_, ?_, ?_, ?_, ?_⟩
  · have := fibonacci_eq_fib 0; norm_num at this; exact this
  · have := fibonacci_eq_fib 1; norm_num at this; exact this
  · have := fibonacci_eq_fib 2; norm_num at this; exact this
  · have := fibonacci_eq_fib 10; norm_num at this; exact this
  · have := fibonacci_eq_fib 20; norm_num at this; exact this

/-- `queryIntOr` in terms of the parse result of the (optional) query
value: absent or unparsable gives the default. -/
theorem queryIntOr_none (q : Option String) (d : Int)
    (h : q.bind jsParseInt = none) : queryIntOr q d = d := by
  cases q with
  | none => rfl
  | some s =>
    simp only [Option.some_bind] at h
    simp [queryIntOr, h]

/-- `queryIntOr` on a value that parses to `0`: the `||` fallback treats
`0` as falsy and yields the default. -/
theorem queryIntOr_zero (q : Option String) (d : Int)
    (h : q.bind jsParseInt = some 0) : queryIntOr q d = d := by
  cases q with
  | none => simp at h
  | some s =>
    simp only [Option.some_bind] at h
    simp [queryIntOr, h]

/-- `queryIntOr` on a value that parses to a nonzero integer uses exactly
the parsed value. -/
theorem queryIntOr_val (q : Option String) (d v : Int)
    (h : q.bind jsParseInt = some v) (hv : v ≠ 0) : queryIntOr q d = v := by
  cases q with
  | none => simp at h
  | some s =>
    simp only [Option.some_bind] at h
    simp [queryIntOr, h, hv]

/-- Claim C2 (counterexample): an explicit query value of `"0"` on
`/api/cpu-load` is not used as `0`; the `parseInt(...) || 40` fallback
replaces it with the default `40`, because `0` is falsy in JavaScript. -/
theorem c2_counterexample :
    cpuLoadN (some "0") = 40 ∧ cpuLoadN (some "0") ≠ 0 := by
  constructor <;> decide

/-- Claim C2 (amended): every numeric query parameter (`n` on
`/api/cpu-load`, `size` on `/api/memory-load`, `delay` on
`/api/async-load`, `cpu`/`memory`/`delay` on `/api/combined-load`) is
parsed with `parseInt`; the documented default (40, 10, 100 and 30/5/50
respectively) is used when the value is absent, unparsable, or parses to
`0` — a parsed `0` is falsy under `||` and is therefore replaced by the
default, not used as `0`; every nonzero parsed value is used exactly. -/
theorem c2_amended_param_parsing (q : Option String) :
    ((q.bind jsParseInt = none ∨ q.bind jsParseInt = some 0) →
      cpuLoadN q = 40 ∧ memoryLoadSize q = 10 ∧ asyncLoadDelay q = 100 ∧
      combinedCpuWork q = 30 ∧ combinedMemoryMB q = 5 ∧
      combinedAsyncDelay q = 50) ∧
    (∀ v : Int, q.bind jsParseInt = some v → v ≠ 0 →
      cpuLoadN q = v ∧ memoryLoadSize q = v ∧ asyncLoadDelay q = v ∧
      combinedCpuWork q = v ∧ combinedMemoryMB q = v ∧
      combinedAsyncDelay q = v) := by
  constructor
  · intro h
    rcases h with h | h
    · exact ⟨queryIntOr_none q _ h, queryIntOr_none q _ h, queryIntOr_none q _ h,
             queryIntOr_none q _ h, queryIntOr_none q _ h, queryIntOr_none q _ h⟩
    · exact ⟨queryIntOr_zero q _ h, queryIntOr_zero q _ h, queryIntOr_zero q _ h,
             queryIntOr_zero q _ h, queryIntOr_zero q _ h, queryIntOr_zero q _ h⟩
  · intro v h hv
    exact ⟨queryIntOr_val q _ v h hv, queryIntOr_val q _ v h hv,
           queryIntOr_val q _ v h hv, queryIntOr_val q _ v h hv,
           queryIntOr_val q _ v h hv, queryIntOr_val q _ v h hv⟩

/-- Claim C2 (witness): the amended parsing behavior at concrete inputs —
an absent `n` gives the default 40, and an explicit `"7"` is used as 7. -/
theorem c2_amended_witness :
    cpuLoadN none = 40 ∧ asyncLoadDelay (some "7") = 7 :=
  ⟨((c2_amended_param_parsing none).1 (Or.inl rfl)).1,
   (((c2_amended_param_parsing (some "7")).2 7 (by decide) (by decide)).2).2.1⟩

/-- Claim C3 (counterexample): immediately after process start, at uptime
exactly 0, the metrics snapshot's computed `requestsPerSecond` is the
division `0 / 0`, i.e. NaN — the handler does not special-case near-zero
uptime, refuting that the value is never NaN or infinite. -/
theorem c3_counterexample :
    (metricsHandler (initialMetrics 0) 0).requestsPerSecond = JsNum.nan ∧
    (metricsHandler (initialMetrics 0) 0).uptime = 0 := by
  constructor
  · norm_num [metricsHandler, requestsPerSecond, metricsUptime, jsDiv,
      initialMetrics]
  · norm_num [metricsHandler, metricsUptime, initialMetrics]

/-- Claim C3 (amended): the snapshot computes `uptime` as
`(now - startTime) / 1000` and `requestsPerSecond` as
`requestCount / uptime` with no special case for zero uptime; at uptime
exactly 0 the computed value is NaN (when `requestCount = 0`) or
+Infinity (when `requestCount > 0`), which `res.json`'s JSON
serialization renders as `null` rather than a number, so the exposed JSON
never carries a numeric NaN/Infinity token but the field degenerates to
`null`; for nonzero uptime the value is the finite quotient. -/
theorem c3_amended_requests_per_second (m : LoadTestMetrics) (now : Int) :
    (metricsHandler m now).uptime = metricsUptime m now ∧
    (metricsUptime m now = 0 →
      ((metricsHandler m now).requestsPerSecond = JsNum.nan ∨
       (metricsHandler m now).requestsPerSecond = JsNum.posInf) ∧
      jsNumToJson ((metricsHandler m now).requestsPerSecond) = none) ∧
    (metricsUptime m now ≠ 0 →
      (metricsHandler m now).requestsPerSecond =
        JsNum.finite ((m.requestCount : ℚ) / metricsUptime m now)) := by
  refine ⟨rfl, ?_, ?_⟩
  · intro h
    by_cases hc : m.requestCount = 0
    · have : (metricsHandler m now).requestsPerSecond = JsNum.nan := by
        simp [metricsHandler, requestsPerSecond, jsDiv, h, hc]
      exact ⟨Or.inl this, by simp [this, jsNumToJson]⟩
    · have hpos : (0 : ℚ) < (m.requestCount : ℚ) := by
        exact_mod_cast Nat.pos_of_ne_zero hc
      have : (metricsHandler m now).requestsPerSecond = JsNum.posInf := by
        simp [metricsHandler, requestsPerSecond, jsDiv, h, hpos,
          ne_of_gt hpos, hpos.ne.symm]
      exact ⟨Or.inr this, by simp [this, jsNumToJson]⟩
  · intro h
    simp [metricsHandler, requestsPerSecond, jsDiv, h]

/-- Claim C3 (witness): the amended statement at concrete states — a fresh
process at uptime 0 yields a non-finite value serialized to `null`, and
the same metrics two seconds later yield the finite quotient `0`. -/
theorem c3_amended_witness :
    (((metricsHandler (initialMetrics 0) 0).requestsPerSecond = JsNum.nan ∨
      (metricsHandler (initialMetrics 0) 0).requestsPerSecond = JsNum.posInf) ∧
     jsNumToJson ((metricsHandler (initialMetrics 0) 0).requestsPerSecond) = none) ∧
    (metricsHandler (initialMetrics 0) 2000).requestsPerSecond =
      JsNum.finite (((initialMetrics 0).requestCount : ℚ) /
        metricsUptime (initialMetrics 0) 2000) :=
  ⟨(c3_amended_requests_per_second (initialMetrics 0) 0).2.1
     (by norm_num [metricsUptime, initialMetrics]),
   (c3_amended_requests_per_second (initialMetrics 0) 2000).2.2
     (by norm_num [metricsUptime, initialMetrics])⟩

/-- The metrics effect of any single event never decreases either counter. -/
theorem stepMetrics_mono (m : LoadTestMetrics) (e : Event) :
    m.requestCount ≤ (stepMetrics m e).requestCount ∧
    m.errors ≤ (stepMetrics m e).errors := by
  cases e with
  | ssr r =>
    cases r <;> simp [stepMetrics, ssrHandler]
  | uncaughtException => simp [stepMetrics, onUncaughtException]
  | unhandledRejection => simp [stepMetrics, onUnhandledRejection]
  | apiHealth => exact ⟨le_refl _, le_refl _⟩
  | apiMetrics => exact ⟨le_refl _, le_refl _⟩
  | apiCpuLoad => exact ⟨le_refl _, le_refl _⟩
  | apiMemoryLoad => exact ⟨le_refl _, le_refl _⟩
  | apiAsyncLoad => exact ⟨le_refl _, le_refl _⟩
  | apiCombinedLoad => exact ⟨le_refl _, le_refl _⟩

/-- Both counters are monotone along any sequence of handled events. -/
theorem runEvents_mono (m : LoadTestMetrics) (evs : List Event) :
    m.requestCount ≤ (runEvents m evs).requestCount ∧
    m.errors ≤ (runEvents m evs).errors := by
  induction evs generalizing m with
  | nil => exact ⟨le_refl _, le_refl _⟩
  | cons e evs ih =>
    have h1 := stepMetrics_mono m e
    have h2 := ih (stepMetrics m e)
    exact ⟨le_trans h1.1 h2.1, le_trans h1.2 h2.2⟩

/-- Claim C4: over any sequence of handled events both counters are
monotonically non-decreasing; every completed catch-all (SSR) request —
successful or failed — increments `requestCount` by exactly one; none of
the synthetic load endpoints (`/api/health`, `/api/metrics`,
`/api/cpu-load`, `/api/memory-load`, `/api/async-load`,
`/api/combined-load`) changes the metrics at all; and each of the two
top-level guards (uncaught exception, unhandled rejection) increments
`errorCount`. -/
theorem c4_metrics_counter_invariants :
    (∀ (m : LoadTestMetrics) (evs : List Event),
      m.requestCount ≤ (runEvents m evs).requestCount ∧
      m.errors ≤ (runEvents m evs).errors) ∧
    (∀ (m : LoadTestMetrics) (r : RenderResult),
      (stepMetrics m (Event.ssr r)).requestCount = m.requestCount + 1) ∧
    (∀ m : LoadTestMetrics,
      stepMetrics m Event.apiHealth = m ∧
      stepMetrics m Event.apiMetrics = m ∧
      stepMetrics m Event.apiCpuLoad = m ∧
      stepMetrics m Event.apiMemoryLoad = m ∧
      stepMetrics m Event.apiAsyncLoad = m ∧
      stepMetrics m Event.apiCombinedLoad = m) ∧
    (∀ m : LoadTestMetrics,
      (stepMetrics m Event.uncaughtException).errors = m.errors + 1 ∧
      (stepMetrics m Event.unhandledRejection).errors = m.errors + 1) := by
  refine ⟨runEvents_mono, ?_, ?_, ?_⟩
  · intro m r
    cases r <;> simp [stepMetrics, ssrHandler]
  · intro m
    exact ⟨rfl, rfl, rfl, rfl, rfl, rfl⟩
  · intro m
    exact ⟨rfl, rfl⟩

/-- Claim C5: for every `sizeMB ≥ 0` the memory generator allocates
exactly `⌊sizeMB⌋` buffers, every buffer is a separate 1-megabyte
(`1024 * 1024` bytes) allocation and the buffers are pairwise distinct
(not one contiguous block); `sizeMB = 0` yields the empty allocation set;
and the `/api/memory-load` response's `allocatedMB` field is exactly the
parsed input `sizeMB`. -/
theorem c5_memory_generator (s : ℚ) (h : 0 ≤ s) :
    ((allocateMemory s).length : Int) = ⌊s⌋ ∧
    (∀ b ∈ allocateMemory s, b.sizeBytes = 1024 * 1024) ∧
    (allocateMemory s).Nodup ∧
    allocateMemory 0 = [] ∧
    (∀ (q : Option String) (tAlloc : Nat),
      (memoryLoadHandler q tAlloc).allocatedMB = memoryLoadSize q) := by
  refine ⟨?_, ?_, ?_, ?_, ?_⟩
  · simp only [allocateMemory, List.length_map, List.length_range]
    exact Int.toNat_of_nonneg (Int.floor_nonneg.mpr h)
  · intro b hb
    simp only [allocateMemory, List.mem_map, List.mem_range] at hb
    obtain ⟨i, _, rfl⟩ := hb
    rfl
  · refine List.Nodup.map ?_ (List.nodup_range _)
    intro i j hij
    simpa using congrArg Buffer.allocIndex hij
  · norm_num [allocateMemory]
  · intro q tAlloc
    rfl

/-- Claim C5 (witness): the generator at the concrete fractional input
`5/2` — two distinct 1 MB buffers, `⌊5/2⌋ = 2`. -/
theorem c5_memory_generator_witness :
    (0 ≤ (5 / 2 : ℚ)) ∧
    (((allocateMemory (5 / 2)).length : Int) = ⌊(5 / 2 : ℚ)⌋ ∧
     (∀ b ∈ allocateMemory (5 / 2), b.sizeBytes = 1024 * 1024) ∧
     (allocateMemory (5 / 2)).Nodup ∧
     allocateMemory 0 = [] ∧
     (∀ (q : Option String) (tAlloc : Nat),
       (memoryLoadHandler q tAlloc).allocatedMB = memoryLoadSize q)) :=
  ⟨by norm_num, c5_memory_generator (5 / 2) (by norm_num)⟩

/-- Claim C6: whenever the catch-all rendering handler's body throws, the
response is HTTP 500 with the failure detail (the exception's stack) as
the body, `errorCount` is incremented by exactly one, and the process does
not crash — the failure is recovered at the request boundary, so the
process state stays alive across the event. -/
theorem c6_ssr_failure_recovered (m : LoadTestMetrics) (stack : String) :
    (ssrHandler m (Except.error stack)).2.status = 500 ∧
    (ssrHandler m (Except.error stack)).2.body = stack ∧
    (ssrHandler m (Except.error stack)).1.errors = m.errors + 1 ∧
    (∀ s : ProcState,
      (procStep s (Event.ssr (Except.error stack))).alive = s.alive) := by
  refine ⟨rfl, rfl, rfl, ?_⟩
  intro s
  rfl

/-- Claim C7: the combined load handler runs the CPU generator, then the
memory generator, then the awaited delay, in that order within one
request (the memory snapshot for the response is taken after the memory
allocation step); the merged response carries `fibResult` computed by
`fibonacci` on the `cpu` parameter, `allocatedMB` equal to the `memory`
parameter, `asyncDelay` equal to the `delay` parameter; the total
duration spans all three phases and hence is at least the (non-negative)
delay; and for `cpu=5, memory=1, delay=10` the response has
`fibResult = 5`, `allocatedMB = 1`, `asyncDelay = 10` and
`totalDuration ≥ 10`. -/
theorem c7_combined_load (qCpu qMem qDelay : Option String)
    (tCpu tMem tSlack : Nat) :
    (combinedLoadHandler qCpu qMem qDelay tCpu tMem tSlack).fibResult =
      fibonacci (combinedCpuWork qCpu) ∧
    (combinedLoadHandler qCpu qMem qDelay tCpu tMem tSlack).allocatedMB =
      combinedMemoryMB qMem ∧
    (combinedLoadHandler qCpu qMem qDelay tCpu tMem tSlack).asyncDelay =
      combinedAsyncDelay qDelay ∧
    (combinedLoadHandler qCpu qMem qDelay tCpu tMem tSlack).buffers =
      allocateMemory ((combinedMemoryMB qMem : Int) : ℚ) ∧
    (0 ≤ combinedAsyncDelay qDelay →
      combinedAsyncDelay qDelay ≤
        ((combinedLoadHandler qCpu qMem qDelay tCpu tMem tSlack).totalDuration
          : Int)) ∧
    (combinedLoadHandler qCpu qMem qDelay tCpu tMem tSlack).trace =
      [CombinedStep.cpuWork, CombinedStep.memAlloc,
       CombinedStep.asyncWait, CombinedStep.memSnapshot] ∧
    (combinedLoadHandler (some "5") (some "1") (some "10") tCpu tMem
      tSlack).fibResult = 5 ∧
    (combinedLoadHandler (some "5") (some "1") (some "10") tCpu tMem
      tSlack).allocatedMB = 1 ∧
    (combinedLoadHandler (some "5") (some "1") (some "10") tCpu tMem
      tSlack).asyncDelay = 10 := by
  refine ⟨rfl, rfl, rfl, rfl, ?_, rfl, ?_, ?_, ?_⟩
  · intro h
    simp only [combinedLoadHandler, awaitedDelayMs]
    push_cast
    omega
  · show fibonacci (combinedCpuWork (some "5")) = 5
    have hc : combinedCpuWork (some "5") = ((5 : Nat) : Int) := by decide
    rw [hc, fibonacci_eq_fib]
    norm_num
  · show combinedMemoryMB (some "1") = 1
    decide
  · show combinedAsyncDelay (some "10") = 10
    decide

/-- Claim C7 (witness): the scenario `cpu=5, memory=1, delay=10` with all
measured synchronous phases instantaneous and no timer overshoot —
`totalDuration ≥ 10` follows from applying the theorem and discharging the
non-negativity of the parsed delay. -/
theorem c7_combined_load_witness :
    (0 : Int) ≤ combinedAsyncDelay (some "10") ∧
    combinedAsyncDelay (some "10") ≤
      ((combinedLoadHandler
          (some "5") (some "1") (some "10") 0 0 0).totalDuration : Int) :=
  ⟨by decide,
   (c7_combined_load (some "5") (some "1") (some "10") 0 0 0).2.2.2.2.1
     (by decide)⟩

/-- Claim C8: the async delay generator never completes early — for every
request whose parsed `delay` is non-negative, the reported
`actualDuration` is at least the requested delay, and the response's
`delay` field equals the requested (parsed) delay. -/
theorem c8_async_load_never_early (q : Option String) (tSlack : Nat)
    (h : 0 ≤ asyncLoadDelay q) :
    asyncLoadDelay q ≤ ((asyncLoadHandler q tSlack).actualDuration : Int) ∧
    (asyncLoadHandler q tSlack).delay = asyncLoadDelay q := by
  constructor
  · simp only [asyncLoadHandler, awaitedDelayMs]
    push_cast
    omega
  · rfl

/-- Claim C8 (witness): `delay=100` with a 7 ms timer overshoot —
`actualDuration = 107 ≥ 100` and the echoed `delay` is the parsed 100. -/
theorem c8_async_load_witness :
    asyncLoadDelay (some "100") ≤
      ((asyncLoadHandler (some "100") 7).actualDuration : Int) ∧
    (asyncLoadHandler (some "100") 7).delay = asyncLoadDelay (some "100") :=
  c8_async_load_never_early (some "100") 7 (by decide)

/-- Claim C9: each of the two top-level process guards (uncaught
exception, unhandled rejection) increments `errorCount` and leaves every
other metrics field (`requestCount`, `startTime`) unchanged, and neither
terminates the process — the process state stays alive. -/
theorem c9_global_guards (m : LoadTestMetrics) (s : ProcState) :
    (onUncaughtException m).errors = m.errors + 1 ∧
    (onUncaughtException m).requestCount = m.requestCount ∧
    (onUncaughtException m).startTime = m.startTime ∧
    (onUnhandledRejection m).errors = m.errors + 1 ∧
    (onUnhandledRejection m).requestCount = m.requestCount ∧
    (onUnhandledRejection m).startTime = m.startTime ∧
    (procStep s Event.uncaughtException).alive = s.alive ∧
    (procStep s Event.unhandledRejection).alive = s.alive :=
  ⟨rfl, rfl, rfl, rfl, rfl, rfl, rfl, rfl⟩

/-- Claim C10: the catch-all handler increments `requestCount` at entry,
before rendering — so a failed rendering request has already counted:
on failure both `requestCount` and `errorCount` are incremented and the
`requestCount` increment is not rolled back; a successful request
increments `requestCount` alone. -/
theorem c10_failed_request_still_counted (m : LoadTestMetrics)
    (stack : String) :
    (ssrHandler m (Except.error stack)).1.requestCount = m.requestCount + 1 ∧
    (ssrHandler m (Except.error stack)).1.errors = m.errors + 1 ∧
    (∀ html : String,
      (ssrHandler m (Except.ok html)).1.requestCount = m.requestCount + 1 ∧
      (ssrHandler m (Except.ok html)).1.errors = m.errors) :=
  ⟨rfl, rfl, fun _ => ⟨rfl, rfl⟩⟩

end LoadServer
